import Mathlib

/-!
Verification of the Freshdesk API gateway layer (freshdeskmcp).

The definitions below are a shallow embedding of the TypeScript source:
* `parseLinkHeader` and its helpers embed the pagination Link-header parser,
  including the behaviour of the regular expression
  `<(.+?)>;\s*rel="(.+?)"`, of the WHATWG URL constructor as used there,
  of `URLSearchParams.get` and of JavaScript `parseInt`.
* `FreshdeskAPI.requestRaw` / `FreshdeskAPI.request` embed the transport
  adapter; the network is an explicit oracle `Net` mapping a built request
  to either a transport failure or an HTTP response whose body is carried
  as an already-parsed JSON value (`jsonBody = none` models a body that
  fails JSON parsing).
* The gateway operations (`getCategories`, `getAllArticles`, `updateTicket`,
  `listTickets`, ...) and the tool-level handlers (`getCategoriesTool`,
  `createTicketTool`) are embedded with explicit request traces: every
  function returns, alongside its result, the list of HTTP requests it
  issued, in order.
-/

/-- JSON values, as carried by response bodies and request payloads. -/
inductive Json where
  | null : Json
  | bool : Bool → Json
  | num : Int → Json
  | str : String → Json
  | arr : List Json → Json
  | obj : List (String × Json) → Json
deriving Repr

mutual

/-- Structural equality test for `Json`. -/
def Json.beq : Json → Json → Bool
  | .null, .null => true
  | .bool a, .bool b => a == b
  | .num a, .num b => a == b
  | .str a, .str b => a == b
  | .arr a, .arr b => Json.beqList a b
  | .obj a, .obj b => Json.beqFields a b
  | _, _ => false

/-- Structural equality test for lists of `Json`. -/
def Json.beqList : List Json → List Json → Bool
  | [], [] => true
  | a :: as, b :: bs => Json.beq a b && Json.beqList as bs
  | _, _ => false

/-- Structural equality test for JSON object field lists. -/
def Json.beqFields : List (String × Json) → List (String × Json) → Bool
  | [], [] => true
  | (k, v) :: as, (k', v') :: bs => k == k' && Json.beq v v' && Json.beqFields as bs
  | _, _ => false

end

mutual

theorem Json.beq_refl : ∀ j : Json, Json.beq j j = true
  | .null => rfl
  | .bool b => by simp [Json.beq]
  | .num n => by simp [Json.beq]
  | .str s => by simp [Json.beq]
  | .arr xs => by simp [Json.beq, Json.beqList_refl xs]
  | .obj fs => by simp [Json.beq, Json.beqFields_refl fs]

theorem Json.beqList_refl : ∀ xs : List Json, Json.beqList xs xs = true
  | [] => rfl
  | x :: xs => by simp [Json.beqList, Json.beq_refl x, Json.beqList_refl xs]

theorem Json.beqFields_refl : ∀ fs : List (String × Json), Json.beqFields fs fs = true
  | [] => rfl
  | (k, v) :: fs => by simp [Json.beqFields, Json.beq_refl v, Json.beqFields_refl fs]

end

mutual

theorem Json.eq_of_beq : ∀ {a b : Json}, Json.beq a b = true → a = b
  | .null, .null, _ => rfl
  | .bool _, .bool _, h => by simpa [Json.beq] using congrArg Json.bool (by simpa [Json.beq] using h)
  | .num _, .num _, h => by simpa [Json.beq] using congrArg Json.num (by simpa [Json.beq] using h)
  | .str _, .str _, h => by simpa [Json.beq] using congrArg Json.str (by simpa [Json.beq] using h)
  | .arr as, .arr bs, h => congrArg Json.arr (Json.eqList_of_beq (by simpa [Json.beq] using h))
  | .obj as, .obj bs, h => congrArg Json.obj (Json.eqFields_of_beq (by simpa [Json.beq] using h))

theorem Json.eqList_of_beq : ∀ {as bs : List Json}, Json.beqList as bs = true → as = bs
  | [], [], _ => rfl
  | a :: as, b :: bs, h => by
      have h' := h
      simp only [Json.beqList, Bool.and_eq_true] at h'
      exact congrArg₂ List.cons (Json.eq_of_beq h'.1) (Json.eqList_of_beq h'.2)

theorem Json.eqFields_of_beq :
    ∀ {as bs : List (String × Json)}, Json.beqFields as bs = true → as = bs
  | [], [], _ => rfl
  | (k, v) :: as, (k', v') :: bs, h => by
      have h' := h
      simp only [Json.beqFields, Bool.and_eq_true, beq_iff_eq] at h'
      have hkv : (k, v) = (k', v') := by
        have := Json.eq_of_beq h'.1.2
        simp [h'.1.1, this]
      exact congrArg₂ List.cons hkv (Json.eqFields_of_beq h'.2)

end

instance : DecidableEq Json := fun a b =>
  if h : Json.beq a b = true then
    isTrue (Json.eq_of_beq h)
  else
    isFalse (fun he => h (he ▸ Json.beq_refl a))

/-- JavaScript truthiness of a JSON value (`null`, `false`, `0`, `""` are falsy). -/
def Json.truthy : Json → Bool
  | .null => false
  | .bool b => b
  | .num n => n != 0
  | .str s => s != ""
  | .arr _ => true
  | .obj _ => true

/-- First field of a JSON object with the given key (`undefined` is `none`). -/
def Json.getField : Json → String → Option Json
  | .obj fs, k => (fs.find? (fun p => p.1 == k)).map (·.2)
  | _, _ => none

/-- Hex digit (lowercase) used by the JSON string escaper. -/
def hexDigitLower (n : Nat) : Char :=
  ("0123456789abcdef".data).getD n '0'

/-- Hex digit (uppercase) used by percent-encoding. -/
def hexDigitUpper (n : Nat) : Char :=
  ("0123456789ABCDEF".data).getD n '0'

/-- Escape one character inside a JSON string literal, as `JSON.stringify` does. -/
def jsonEscapeChar (c : Char) : List Char :=
  if c = '"' then ['\\', '"']
  else if c = '\\' then ['\\', '\\']
  else if c = '\n' then ['\\', 'n']
  else if c = '\r' then ['\\', 'r']
  else if c = '\t' then ['\\', 't']
  else if c.toNat < 32 then
    ['\\', 'u', '0', '0', hexDigitLower (c.toNat / 16), hexDigitLower (c.toNat % 16)]
  else [c]

/-- A JSON string literal with quotes, as `JSON.stringify` produces. -/
def jsonQuote (s : String) : String :=
  "\"" ++ String.mk (s.data.foldr (fun c acc => jsonEscapeChar c ++ acc) []) ++ "\""

mutual

/-- Serializer mirroring `JSON.stringify` (no spacing). -/
def jsonStringify : Json → String
  | .null => "null"
  | .bool true => "true"
  | .bool false => "false"
  | .num n => toString n
  | .str s => jsonQuote s
  | .arr xs => "[" ++ jsonStringifyList xs ++ "]"
  | .obj fs => "\x7b" ++ jsonStringifyFields fs ++ "\x7d"

/-- Comma-separated serialization of array elements. -/
def jsonStringifyList : List Json → String
  | [] => ""
  | [x] => jsonStringify x
  | x :: xs => jsonStringify x ++ "," ++ jsonStringifyList xs

/-- Comma-separated serialization of object fields. -/
def jsonStringifyFields : List (String × Json) → String
  | [] => ""
  | [(k, v)] => jsonQuote k ++ ":" ++ jsonStringify v
  | (k, v) :: fs => jsonQuote k ++ ":" ++ jsonStringify v ++ "," ++ jsonStringifyFields fs

end

/-! ## JavaScript primitives -/

/-- JavaScript whitespace characters recognised by `parseInt` and by `\s`. -/
def jsWhitespace (c : Char) : Bool :=
  c = ' ' || c = '\t' || c = '\n' || c = '\r' || c = '\x0b' || c = '\x0c'

/-- Value of a leading run of decimal digits; `none` when the first
character is not a digit (the `NaN` case of `parseInt`). -/
def leadingNatAux (acc : Nat) : List Char → Nat
  | c :: rest => if c.isDigit then leadingNatAux (acc * 10 + (c.toNat - 48)) rest else acc
  | [] => acc

/-- Leading decimal-digit run of a character list, if any. -/
def leadingNat : List Char → Option Nat
  | c :: rest => if c.isDigit then some (leadingNatAux (c.toNat - 48) rest) else none
  | [] => none

/-- JavaScript `parseInt(s, 10)`: skip leading whitespace, optional sign,
then a leading digit run; `none` models `NaN`. -/
def jsParseInt (l : List Char) : Option Int :=
  let l := l.dropWhile jsWhitespace
  match l with
  | '-' :: rest => (leadingNat rest).map (fun n => -(n : Int))
  | '+' :: rest => (leadingNat rest).map (fun n => (n : Int))
  | _ => (leadingNat l).map (fun n => (n : Int))

/-- One property assignment on a JavaScript object modelled as an ordered
association list: an existing key is updated in place, a new key is
appended. -/
def objAssign (m : List (String × String)) (kv : String × String) : List (String × String) :=
  if m.any (fun p => p.1 == kv.1) then
    m.map (fun p => if p.1 == kv.1 then (p.1, kv.2) else p)
  else m ++ [kv]

/-- JavaScript object spread `\x7b ...base, ...extra \x7d`: later
assignments override earlier ones key by key. -/
def objSpread (base extra : List (String × String)) : List (String × String) :=
  extra.foldl objAssign base

/-- Value of a key in a JavaScript object modelled as an ordered
association list (keys are unique by construction of `objAssign`). -/
def objGet : List (String × String) → String → Option String
  | [], _ => none
  | p :: ps, k => if p.1 = k then some p.2 else objGet ps k

/-! ## Base64 and UTF-8 (for the Basic authorization header) -/

/-- UTF-8 bytes of one character. -/
def utf8Bytes (c : Char) : List Nat :=
  let n := c.toNat
  if n < 0x80 then [n]
  else if n < 0x800 then [0xC0 + n / 64, 0x80 + n % 64]
  else if n < 0x10000 then [0xE0 + n / 4096, 0x80 + (n / 64) % 64, 0x80 + n % 64]
  else [0xF0 + n / 262144, 0x80 + (n / 4096) % 64, 0x80 + (n / 64) % 64, 0x80 + n % 64]

/-- UTF-8 bytes of a string. -/
def strBytes (s : String) : List Nat :=
  s.data.foldr (fun c acc => utf8Bytes c ++ acc) []

/-- The base64 alphabet. -/
def b64Char (n : Nat) : Char :=
  ("ABCDEFGHIJKLMNOPQRSTUVWXYZabcdefghijklmnopqrstuvwxyz0123456789+/".data).getD n 'A'

/-- Standard base64 of a byte list, three bytes at a time with `=` padding. -/
def base64Chunks : List Nat → List Char
  | [] => []
  | [a] => [b64Char (a / 4), b64Char ((a % 4) * 16), '=', '=']
  | [a, b] => [b64Char (a / 4), b64Char ((a % 4) * 16 + b / 16), b64Char ((b % 16) * 4), '=']
  | a :: b :: c :: rest =>
      [b64Char (a / 4), b64Char ((a % 4) * 16 + b / 16),
       b64Char ((b % 16) * 4 + c / 64), b64Char (c % 64)] ++ base64Chunks rest

/-- `Buffer.from(s).toString('base64')`. -/
def base64 (s : String) : String :=
  String.mk (base64Chunks (strBytes s))

/-! ## URLSearchParams serialization (for list endpoints) -/

/-- `application/x-www-form-urlencoded` encoding of one character:
alphanumerics and `*-._` pass through, space becomes `+`, every other
byte is percent-encoded. -/
def formEncodeChar (c : Char) : List Char :=
  if c.isAlphanum || c = '*' || c = '-' || c = '.' || c = '_' then [c]
  else if c = ' ' then ['+']
  else (utf8Bytes c).foldr
    (fun b acc => '%' :: hexDigitUpper (b / 16) :: hexDigitUpper (b % 16) :: acc) []

/-- Form-encoding of a whole string. -/
def formEncode (s : String) : String :=
  String.mk (s.data.foldr (fun c acc => formEncodeChar c ++ acc) [])

/-- `URLSearchParams.toString()`: `k=v` pairs joined by `&`, both sides
form-encoded. -/
def serializeParams : List (String × String) → String
  | [] => ""
  | [(k, v)] => formEncode k ++ "=" ++ formEncode v
  | (k, v) :: rest => formEncode k ++ "=" ++ formEncode v ++ "&" ++ serializeParams rest

/-! ## The Link-header parser (`parseLinkHeader`) -/

/-- Characters up to the first `"` (exclusive); `none` when no `"` follows.
Line terminators fail the match since `.` does not cross them. -/
def upToQuote : List Char → Option (List Char)
  | [] => none
  | c :: rest =>
      if c = '"' then some []
      else if c = '\n' ∨ c = '\r' then none
      else (upToQuote rest).map (c :: ·)

/-- After the literal `>;`: skip `\s*`, require `rel="`, and capture the
non-empty lazy group up to the closing quote. -/
def relTail (l : List Char) : Option (List Char) :=
  match l.dropWhile jsWhitespace with
  | 'r' :: 'e' :: 'l' :: '=' :: '"' :: rest =>
      match upToQuote rest with
      | some (c :: cs) => some (c :: cs)
      | _ => none
  | _ => none

/-- Scan for the lazily-shortest `>;` continuation after `<` that completes
the pattern `<(.+?)>;\s*rel="(.+?)"`; `acc` holds the reversed URL group so
far. On failure of the continuation the `>` is absorbed into the group and
the scan resumes, mirroring regex backtracking. -/
def urlScan (acc : List Char) : List Char → Option (List Char × List Char)
  | '>' :: ';' :: rest =>
      if acc.isEmpty then urlScan ['>'] (';' :: rest)
      else
        match relTail rest with
        | some r => some (acc.reverse, r)
        | none => urlScan ('>' :: acc) (';' :: rest)
  | c :: rest =>
      if c = '\n' ∨ c = '\r' then none
      else urlScan (c :: acc) rest
  | [] => none

/-- `link.match(/<(.+?)>;\s*rel="(.+?)"/)`: the first position whose `<`
begins a full match yields the two capture groups. -/
def matchLink : List Char → Option (List Char × List Char)
  | [] => none
  | '<' :: rest =>
      match urlScan [] rest with
      | some p => some p
      | none => matchLink rest
  | _ :: rest => matchLink rest

/-- Scheme characters allowed after the first letter of a URL scheme. -/
def isSchemeChar (c : Char) : Bool :=
  c.isAlphanum || c = '+' || c = '-' || c = '.'

/-- Query component of a URL character list: from the first `?` (inclusive)
up to any fragment; empty when there is no query or the query is empty. -/
def searchOf (l : List Char) : List Char :=
  match (l.takeWhile (fun c => c ≠ '#')).dropWhile (fun c => c ≠ '?') with
  | [] => []
  | ['?'] => []
  | q => q

/-- Models `new URL(url).search` for the absolute-URL strings this parser
meets: construction succeeds when the string starts with an ASCII-letter
scheme followed by `:` (otherwise the constructor throws, modelled as
`none`), and the search component is the query part of the string. -/
def urlSearch : List Char → Option (List Char)
  | [] => none
  | c :: rest =>
      if c.isAlpha then
        match rest.dropWhile isSchemeChar with
        | ':' :: _ => some (searchOf (c :: rest))
        | _ => none
      else none

/-- Split a character list on a separator character, JavaScript
`String.prototype.split` style (an empty input yields one empty piece). -/
def splitOnChar (sep : Char) : List Char → List (List Char)
  | [] => [[]]
  | c :: rest =>
      if c = sep then [] :: splitOnChar sep rest
      else
        match splitOnChar sep rest with
        | [] => [[c]]
        | piece :: pieces => (c :: piece) :: pieces

/-- Form-decoding applied by `URLSearchParams` to keys and values:
`+` becomes a space (percent-escapes do not occur in the inputs here). -/
def formDecode (l : List Char) : List Char :=
  l.map (fun c => if c = '+' then ' ' else c)

/-- `new URLSearchParams(search).get(key)`: strip a leading `?`, split on
`&`, skip empty segments, split each segment at its first `=`, and return
the first value whose key matches. -/
def searchParamsGet (search : List Char) (key : List Char) : Option (List Char) :=
  let s := match search with
    | '?' :: rest => rest
    | l => l
  let pairs := (splitOnChar '&' s).filter (fun seg => ¬ seg.isEmpty)
  let kvs := pairs.map (fun seg =>
    (formDecode (seg.takeWhile (fun c => c ≠ '=')),
     formDecode ((seg.dropWhile (fun c => c ≠ '=')).drop 1)))
  (kvs.find? (fun kv => kv.1 = key)).map (·.2)

/-- Pagination info recovered from the Link header. -/
structure PaginationInfo where
  nextPage : Option Int := none
  prevPage : Option Int := none
deriving Repr, DecidableEq

/-- Body of the `links.forEach` callback: one comma-separated entry either
updates the pagination record or leaves it unchanged (no regex match, URL
construction throwing, missing or falsy `page` parameter, other `rel`
values, or a `NaN` page number). -/
def processLink (pagination : PaginationInfo) (link : List Char) : PaginationInfo :=
  match matchLink link with
  | none => pagination
  | some (url, rel) =>
      match urlSearch url with
      | none => pagination
      | some search =>
          match searchParamsGet search "page".data with
          | none => pagination
          | some page =>
              if ¬ page.isEmpty ∧ (rel = "next".data ∨ rel = "prev".data) then
                match jsParseInt page with
                | none => pagination
                | some n =>
                    if rel = "next".data then { pagination with nextPage := some n }
                    else { pagination with prevPage := some n }
              else pagination

/-- `parseLinkHeader`: split the header on commas and fold the entry
processor over the pieces; a `null` or empty (falsy) header yields the
empty record. -/
def parseLinkHeader (linkHeader : Option String) : PaginationInfo :=
  match linkHeader with
  | none => {}
  | some s =>
      if s = "" then {}
      else (splitOnChar ',' s.data).foldl processLink {}

/-! ## Transport adapter -/

/-- A built outbound HTTP request: URL, method, the final header object
(after the spread in `requestRaw`), and the serialized body. -/
structure Request where
  url : String
  method : String
  headers : List (String × String)
  body : Option String
deriving Repr, DecidableEq

/-- The `RequestInit` options accepted by `requestRaw` (`GET` is the
transport's default method). -/
structure RequestOptions where
  method : String := "GET"
  body : Option String := none
  headers : List (String × String) := []

/-- An HTTP response as observed by the gateway: status, status text, the
JSON parse of the body (`none` when parsing the body fails), and the
`Link` header. -/
structure HttpResponse where
  status : Nat
  statusText : String := ""
  jsonBody : Option Json := none
  linkHeader : Option String := none
deriving Repr, DecidableEq

/-- `Response.ok`: status in the 2xx range. -/
def HttpResponse.isOk (r : HttpResponse) : Bool :=
  200 ≤ r.status && r.status ≤ 299

/-- The network oracle: `fetch` either rejects (transport failure, carried
as an error message) or resolves to a response. -/
def Net : Type := Request → Except String HttpResponse

/-- The gateway instance: the Credential (API key and domain). -/
structure FreshdeskAPI where
  apiKey : String
  domain : String

/-- `https://domain/api/v2`. -/
def FreshdeskAPI.baseUrl (fd : FreshdeskAPI) : String :=
  "https://" ++ fd.domain ++ "/api/v2"

/-- The request `requestRaw` builds and hands to `fetch`: base URL plus
endpoint, and a header object spreading the caller's headers over the
`Content-Type` and Basic-`Authorization` defaults (later keys win). -/
def FreshdeskAPI.buildRequest (fd : FreshdeskAPI) (endpoint : String)
    (options : RequestOptions) : Request :=
  { url := fd.baseUrl ++ endpoint
    method := options.method
    headers := objSpread
      [("Content-Type", "application/json"),
       ("Authorization", "Basic " ++ base64 (fd.apiKey ++ ":X"))]
      options.headers
    body := options.body }

/-- `requestRaw`: perform one `fetch` of the built request, recording it in
the issued-request trace; errors are not raised here. -/
def FreshdeskAPI.requestRaw (fd : FreshdeskAPI) (endpoint : String)
    (options : RequestOptions) (net : Net) : Except String HttpResponse × List Request :=
  let req := fd.buildRequest endpoint options
  (net req, [req])

/-- Error message used when a JSON error body is available. -/
def apiErrorMessage (status : Nat) (statusText : String) (data : Json) : String :=
  let msg := match data.getField "message" with
    | some (.str s) => if s ≠ "" then s else statusText
    | _ => statusText
  let details := match data.getField "errors" with
    | some e => if e.truthy then " Details: " ++ jsonStringify e else ""
    | none => ""
  "Freshdesk API Error (" ++ toString status ++ "): " ++ msg ++ details

/-- Error message used when the error body fails to parse. -/
def apiParseFailMessage (status : Nat) (statusText : String) : String :=
  "Freshdesk API Error (" ++ toString status ++ "): " ++ statusText ++
    ". Failed to parse response body."

/-- The body-returning `request` variant: a 204 yields an empty record; a
body that fails to parse yields an error for a non-2xx status but an empty
record for a 2xx one; a parsed body on a non-2xx status yields the
formatted API error; otherwise the parsed body is returned. -/
def FreshdeskAPI.request (fd : FreshdeskAPI) (endpoint : String)
    (options : RequestOptions) (net : Net) : Except String Json × List Request :=
  match fd.requestRaw endpoint options net with
  | (.error e, issued) => (.error e, issued)
  | (.ok response, issued) =>
      if response.status = 204 then (.ok (Json.obj []), issued)
      else
        match response.jsonBody with
        | none =>
            if ¬ response.isOk then
              (.error (apiParseFailMessage response.status response.statusText), issued)
            else (.ok (Json.obj []), issued)
        | some data =>
            if ¬ response.isOk then
              (.error (apiErrorMessage response.status response.statusText data), issued)
            else (.ok data, issued)

/-! ## Gateway operations -/

/-- JavaScript string interpolation of a possibly-undefined value, as it
appears inside template-literal endpoints (`undefined` for a missing
property, decimal for numbers). -/
def jsDisplay : Option Json → String
  | some (.num n) => toString n
  | some (.str s) => s
  | some (.bool true) => "true"
  | some (.bool false) => "false"
  | some .null => "null"
  | some (.arr _) => ""
  | some (.obj _) => "[object Object]"
  | none => "undefined"

/-- `getCategories`: the only operation that never fails outward — a
transport or API error is caught and a non-array (or falsy) body is
replaced by the empty array. -/
def FreshdeskAPI.getCategories (fd : FreshdeskAPI) (net : Net) :
    Except String (List Json) × List Request :=
  match fd.request "/solutions/categories" {} net with
  | (.error _, issued) => (.ok [], issued)
  | (.ok response, issued) =>
      match response with
      | .arr xs => (.ok xs, issued)
      | _ => (.ok [], issued)

/-- `getFolders`: the category id is interpolated into the endpoint; the
TypeScript annotation is `number` but nothing is checked at runtime, so the
argument is carried as the JavaScript value the callers pass
(`category.id`, which can be `undefined`). -/
def FreshdeskAPI.getFolders (fd : FreshdeskAPI) (categoryId : Option Json) (net : Net) :
    Except String Json × List Request :=
  fd.request ("/solutions/categories/" ++ jsDisplay categoryId ++ "/folders") {} net

/-- `getArticles`, analogous to `getFolders`. -/
def FreshdeskAPI.getArticles (fd : FreshdeskAPI) (folderID : Option Json) (net : Net) :
    Except String Json × List Request :=
  fd.request ("/solutions/folders/" ++ jsDisplay folderID ++ "/articles") {} net

/-- Elements of a decoded JSON value when iterated with `for ... of`
(only arrays are iterated in the traversals below). -/
def jsonElems : Json → List Json
  | .arr xs => xs
  | _ => []

/-- Inner loop of `getAllArticles`: per folder, fetch articles inside a
`try`/`catch` — a failing fetch is logged and skipped, a succeeding one is
spread onto the accumulator. -/
def articlesOfFolders (fd : FreshdeskAPI) (net : Net) :
    List Json → List Json → List Request → List Json × List Request
  | [], acc, issued => (acc, issued)
  | folder :: rest, acc, issued =>
      match fd.getArticles (folder.getField "id") net with
      | (.ok articles, issued') =>
          articlesOfFolders fd net rest (acc ++ jsonElems articles) (issued ++ issued')
      | (.error _, issued') =>
          articlesOfFolders fd net rest acc (issued ++ issued')

/-- Outer loop of `getAllArticles`: per category, fetch its folders — this
fetch is NOT wrapped in a `try`/`catch`, so its failure propagates out of
the whole aggregation. -/
def allArticlesLoop (fd : FreshdeskAPI) (net : Net) :
    List Json → List Json → List Request → Except String (List Json) × List Request
  | [], acc, issued => (.ok acc, issued)
  | category :: rest, acc, issued =>
      match fd.getFolders (category.getField "id") net with
      | (.error e, issued') => (.error e, issued ++ issued')
      | (.ok folders, issued') =>
          let (acc', issued'') :=
            articlesOfFolders fd net (jsonElems folders) acc (issued ++ issued')
          allArticlesLoop fd net rest acc' issued''

/-- `getAllArticles`: walk categories → folders → articles sequentially,
accumulating all fetched articles. -/
def FreshdeskAPI.getAllArticles (fd : FreshdeskAPI) (net : Net) :
    Except String (List Json) × List Request :=
  match fd.getCategories net with
  | (.error e, issued) => (.error e, issued)
  | (.ok categories, issued) => allArticlesLoop fd net categories [] issued

/-- `createTicket`: POST the serialized payload to `/tickets`. -/
def FreshdeskAPI.createTicket (fd : FreshdeskAPI) (payload : Json) (net : Net) :
    Except String Json × List Request :=
  fd.request "/tickets" { method := "POST", body := some (jsonStringify payload) } net

/-- `updateTicket`: an empty payload object is rejected locally, before
`request` is reached; otherwise the payload is PUT to the ticket. -/
def FreshdeskAPI.updateTicket (fd : FreshdeskAPI) (ticketId : Int)
    (payload : List (String × Json)) (net : Net) : Except String Json × List Request :=
  if payload.length = 0 then (.error "Update payload cannot be empty.", [])
  else
    fd.request ("/tickets/" ++ toString ticketId)
      { method := "PUT", body := some (jsonStringify (.obj payload)) } net

/-- `updateTicketField`: same local emptiness check; the payload is PUT
wrapped in a `ticket_field` envelope. -/
def FreshdeskAPI.updateTicketField (fd : FreshdeskAPI) (fieldId : Int)
    (payload : List (String × Json)) (net : Net) : Except String Json × List Request :=
  if payload.length = 0 then (.error "Update payload cannot be empty.", [])
  else
    fd.request ("/ticket_fields/" ++ toString fieldId)
      { method := "PUT", body := some (jsonStringify (.obj [("ticket_field", .obj payload)])) } net

/-- `updateContact`: same local emptiness check, PUT to the contact. -/
def FreshdeskAPI.updateContact (fd : FreshdeskAPI) (contactId : Int)
    (payload : List (String × Json)) (net : Net) : Except String Json × List Request :=
  if payload.length = 0 then (.error "Update payload cannot be empty.", [])
  else
    fd.request ("/contacts/" ++ toString contactId)
      { method := "PUT", body := some (jsonStringify (.obj payload)) } net

/-- `updateContactField`: same local emptiness check; the payload is PUT
wrapped in a `contact_field` envelope. -/
def FreshdeskAPI.updateContactField (fd : FreshdeskAPI) (fieldId : Int)
    (payload : List (String × Json)) (net : Net) : Except String Json × List Request :=
  if payload.length = 0 then (.error "Update payload cannot be empty.", [])
  else
    fd.request ("/contact_fields/" ++ toString fieldId)
      { method := "PUT", body := some (jsonStringify (.obj [("contact_field", .obj payload)])) } net

/-! ## List operations with pagination -/

/-- The optional ticket list filters of `listTickets`. -/
structure FreshdeskTicketFilters where
  email : Option String := none
  requester_id : Option Int := none
  company_id : Option Int := none
  status : Option Int := none
  priority : Option Int := none
  source : Option Int := none
  group_id : Option Int := none
  agent_id : Option Int := none
  tags : Option (List String) := none
  created_since : Option String := none
  updated_since : Option String := none
  due_since : Option String := none
  custom_fields : Option (List (String × Json)) := none

/-- A string filter appended only when truthy (`""` is falsy). -/
def strParam (k : String) : Option String → List (String × String)
  | some s => if s ≠ "" then [(k, s)] else []
  | none => []

/-- A numeric filter appended only when truthy (`0` is falsy). -/
def numParam (k : String) : Option Int → List (String × String)
  | some n => if n ≠ 0 then [(k, toString n)] else []
  | none => []

/-- The filter query parameters of `listTickets`, in the order the source
appends them; a present `tags` array (even empty) and a present
`custom_fields` object are truthy. -/
def ticketFilterParams : Option FreshdeskTicketFilters → List (String × String)
  | none => []
  | some f =>
      strParam "email" f.email ++
      numParam "requester_id" f.requester_id ++
      numParam "company_id" f.company_id ++
      numParam "status" f.status ++
      numParam "priority" f.priority ++
      numParam "source" f.source ++
      numParam "group_id" f.group_id ++
      numParam "agent_id" f.agent_id ++
      (match f.tags with
        | some tags => [("tags", String.intercalate "," tags)]
        | none => []) ++
      strParam "created_since" f.created_since ++
      strParam "updated_since" f.updated_since ++
      strParam "due_since" f.due_since ++
      (match f.custom_fields with
        | some cfs => cfs.map (fun kv => ("custom_fields[" ++ kv.1 ++ "]", jsDisplay (some kv.2)))
        | none => [])

/-- Pagination block attached to a paginated list response. -/
structure PagedMeta where
  currentPage : Int
  perPage : Int
  nextPage : Option Int
  prevPage : Option Int
deriving Repr, DecidableEq

/-- Result of `listTickets`. -/
structure PaginatedTickets where
  tickets : Json
  pagination : PagedMeta
deriving Repr, DecidableEq

/-- Result of `listContacts`. -/
structure PaginatedContacts where
  contacts : Json
  pagination : PagedMeta
deriving Repr, DecidableEq

/-- Rejection raised by `response.json()` on an unparsable body (the exact
JavaScript `SyntaxError` text is abstracted by this constant). -/
def jsonRejectionMessage : String := "SyntaxError: invalid JSON response body"

/-- The error thrown by the list operations on a non-2xx status: the error
body is parsed if possible (a parse failure is swallowed and leaves
`errorData` null). -/
def listErrorMessage (r : HttpResponse) : String :=
  match r.jsonBody with
  | some data => apiErrorMessage r.status r.statusText data
  | none => "Freshdesk API Error (" ++ toString r.status ++ "): " ++ r.statusText

/-- `listTickets`: clamp `page` to at least 1 and `perPage` into `[1,100]`,
serialize `page`/`per_page` first and the filters after them, issue the
request through `requestRaw`, and decode the body plus the `Link` header
into a paginated result. -/
def FreshdeskAPI.listTickets (fd : FreshdeskAPI) (page perPage : Int)
    (filters : Option FreshdeskTicketFilters) (net : Net) :
    Except String PaginatedTickets × List Request :=
  let validPage := max 1 page
  let validPerPage := min (max 1 perPage) 100
  let params := [("page", toString validPage), ("per_page", toString validPerPage)] ++
    ticketFilterParams filters
  let endpoint := "/tickets?" ++ serializeParams params
  match fd.requestRaw endpoint {} net with
  | (.error e, issued) => (.error e, issued)
  | (.ok response, issued) =>
      if ¬ response.isOk then (.error (listErrorMessage response), issued)
      else
        match response.jsonBody with
        | none => (.error jsonRejectionMessage, issued)
        | some tickets =>
            let paginationInfo := parseLinkHeader response.linkHeader
            (.ok { tickets := tickets
                   pagination :=
                     { currentPage := validPage, perPage := validPerPage
                       nextPage := paginationInfo.nextPage
                       prevPage := paginationInfo.prevPage } }, issued)

/-- `listContacts`: same clamping and pagination mechanics as
`listTickets`, with no filters. -/
def FreshdeskAPI.listContacts (fd : FreshdeskAPI) (page perPage : Int) (net : Net) :
    Except String PaginatedContacts × List Request :=
  let validPage := max 1 page
  let validPerPage := min (max 1 perPage) 100
  let params := [("page", toString validPage), ("per_page", toString validPerPage)]
  let endpoint := "/contacts?" ++ serializeParams params
  match fd.requestRaw endpoint {} net with
  | (.error e, issued) => (.error e, issued)
  | (.ok response, issued) =>
      if ¬ response.isOk then (.error (listErrorMessage response), issued)
      else
        match response.jsonBody with
        | none => (.error jsonRejectionMessage, issued)
        | some contacts =>
            let paginationInfo := parseLinkHeader response.linkHeader
            (.ok { contacts := contacts
                   pagination :=
                     { currentPage := validPage, perPage := validPerPage
                       nextPage := paginationInfo.nextPage
                       prevPage := paginationInfo.prevPage } }, issued)

/-! ## Tool-level handlers -/

/-- A tool handler's outcome: the protocol result is either normal content
or content flagged `isError` — handlers never throw past the tool
boundary. -/
inductive ToolOutcome (α : Type) where
  | success : α → ToolOutcome α
  | failure : String → ToolOutcome α
deriving Repr, DecidableEq

/-- One entry of the `get-categories` tool result: the category, its
folders, and (only on a per-category folder-fetch failure) the attached
error note — the source's `error` property. -/
structure CategoryEntry where
  category : Json
  folders : Json
  errorNote : Option String
deriving Repr, DecidableEq

/-- The per-category loop of the `get-categories` handler: a folder fetch
failure is caught and recorded as an entry with an empty folder list and an
error note; a success is recorded verbatim. -/
def getCategoriesToolLoop (fd : FreshdeskAPI) (net : Net) :
    List Json → List CategoryEntry → List Request → List CategoryEntry × List Request
  | [], acc, issued => (acc, issued)
  | category :: rest, acc, issued =>
      match fd.getFolders (category.getField "id") net with
      | (.ok folders, issued') =>
          getCategoriesToolLoop fd net rest
            (acc ++ [{ category := category, folders := folders, errorNote := none }])
            (issued ++ issued')
      | (.error e, issued') =>
          getCategoriesToolLoop fd net rest
            (acc ++ [{ category := category, folders := .arr []
                       errorNote := some ("Failed to fetch folders: " ++ e) }])
            (issued ++ issued')

/-- The `get-categories` tool handler: fetch the categories (an operation
that never fails), run the per-category loop, and report the collected
entries; the outer `catch` (reached only if `getCategories` could fail, or
if its result were not an array — impossible by its definition) maps to a
failure outcome. -/
def getCategoriesTool (fd : FreshdeskAPI) (net : Net) :
    ToolOutcome (List CategoryEntry) × List Request :=
  match fd.getCategories net with
  | (.error e, issued) => (.failure ("Error fetching categories: " ++ e), issued)
  | (.ok categories, issued) =>
      let (entries, issued') := getCategoriesToolLoop fd net categories [] issued
      (.success entries, issued')

/-- The argument record of the `create-ticket` tool after schema
validation; `status`, `priority` and `source` carry their schema defaults,
and the source's `type` field is spelled `ticketType` (`type` is reserved
in Lean). -/
structure CreateTicketInput where
  subject : String
  description : String
  status : Int := 2
  priority : Int := 1
  source : Int := 2
  email : Option String := none
  requester_id : Option Int := none
  facebook_id : Option String := none
  phone : Option String := none
  twitter_id : Option String := none
  unique_external_id : Option String := none
  name : Option String := none
  ticketType : Option String := none
  responder_id : Option Int := none
  cc_emails : Option (List String) := none
  custom_fields : Option (List (String × Json)) := none
  due_by : Option String := none
  email_config_id : Option Int := none
  fr_due_by : Option String := none
  group_id : Option Int := none
  parent_id : Option Int := none
  product_id : Option Int := none
  tags : Option (List String) := none
  company_id : Option Int := none
  internal_agent_id : Option Int := none
  internal_group_id : Option Int := none
  lookup_parameter : Option String := none

/-- Truthiness of an optional string argument (`""` is falsy). -/
def optStrTruthy : Option String → Bool
  | some s => s ≠ ""
  | none => false

/-- Truthiness of an optional numeric argument (`0` is falsy). -/
def optIntTruthy : Option Int → Bool
  | some n => n ≠ 0
  | none => false

/-- A payload field present only when the optional argument is. -/
def optField (k : String) : Option Json → List (String × Json)
  | some v => [(k, v)]
  | none => []

/-- The ticket-creation payload: the validated input passed through to
`createTicket`, with absent optional properties omitted. -/
def createTicketPayload (i : CreateTicketInput) : Json :=
  .obj ([("subject", .str i.subject), ("description", .str i.description),
         ("status", .num i.status), ("priority", .num i.priority),
         ("source", .num i.source)] ++
    optField "email" (i.email.map .str) ++
    optField "requester_id" (i.requester_id.map .num) ++
    optField "facebook_id" (i.facebook_id.map .str) ++
    optField "phone" (i.phone.map .str) ++
    optField "twitter_id" (i.twitter_id.map .str) ++
    optField "unique_external_id" (i.unique_external_id.map .str) ++
    optField "name" (i.name.map .str) ++
    optField "type" (i.ticketType.map .str) ++
    optField "responder_id" (i.responder_id.map .num) ++
    optField "cc_emails" (i.cc_emails.map (fun l => .arr (l.map .str))) ++
    optField "custom_fields" (i.custom_fields.map .obj) ++
    optField "due_by" (i.due_by.map .str) ++
    optField "email_config_id" (i.email_config_id.map .num) ++
    optField "fr_due_by" (i.fr_due_by.map .str) ++
    optField "group_id" (i.group_id.map .num) ++
    optField "parent_id" (i.parent_id.map .num) ++
    optField "product_id" (i.product_id.map .num) ++
    optField "tags" (i.tags.map (fun l => .arr (l.map .str))) ++
    optField "company_id" (i.company_id.map .num) ++
    optField "internal_agent_id" (i.internal_agent_id.map .num) ++
    optField "internal_group_id" (i.internal_group_id.map .num) ++
    optField "lookup_parameter" (i.lookup_parameter.map .str))

/-- The requester-identifier pre-flight check of the `create-ticket`
handler: at least one of the six identifiers must be truthy. -/
def hasRequesterIdentifier (i : CreateTicketInput) : Bool :=
  optStrTruthy i.email || optIntTruthy i.requester_id || optStrTruthy i.facebook_id ||
  optStrTruthy i.phone || optStrTruthy i.twitter_id || optStrTruthy i.unique_external_id

/-- The `create-ticket` tool handler: both validation checks run before any
network call; only when they pass is `createTicket` invoked, its failure
being caught and shaped into an error outcome. -/
def createTicketTool (fd : FreshdeskAPI) (input : CreateTicketInput) (net : Net) :
    ToolOutcome Json × List Request :=
  if ¬ hasRequesterIdentifier input then
    (.failure ("Validation Error: At least one requester identifier (email, requester_id, " ++
      "facebook_id, phone, twitter_id, or unique_external_id) must be provided."), [])
  else if optStrTruthy input.phone && ¬ optStrTruthy input.email && ¬ optStrTruthy input.name then
    (.failure "Validation Error: Name is required when using phone without an email address.", [])
  else
    match fd.createTicket (createTicketPayload input) net with
    | (.ok t, issued) => (.success t, issued)
    | (.error e, issued) => (.failure ("Error creating ticket: " ++ e), issued)

/-! ## Fixtures -/

/-- A concrete gateway instance used in concrete instantiations. -/
def fdEx : FreshdeskAPI := { apiKey := "k", domain := "d" }

/-- A network oracle on which `fetch` always rejects. -/
def netErr : Net := fun _ => .error "offline"

/-! ## C1: empty update payloads are rejected locally -/

/-- C1: for every update operation (`updateTicket`, `updateTicketField`,
`updateContact`, `updateContactField`), a payload with zero fields yields
the local "Update payload cannot be empty." error and no HTTP request is
issued. -/
theorem claim1_empty_update_rejected_locally (fd : FreshdeskAPI) (rid : Int)
    (payload : List (String × Json)) (net : Net) (h : payload.length = 0) :
    fd.updateTicket rid payload net = (.error "Update payload cannot be empty.", []) ∧
    fd.updateTicketField rid payload net = (.error "Update payload cannot be empty.", []) ∧
    fd.updateContact rid payload net = (.error "Update payload cannot be empty.", []) ∧
    fd.updateContactField rid payload net = (.error "Update payload cannot be empty.", []) := by
  refine ⟨?_, ?_, ?_, ?_⟩ <;>
    simp [FreshdeskAPI.updateTicket, FreshdeskAPI.updateTicketField,
      FreshdeskAPI.updateContact, FreshdeskAPI.updateContactField, h]

/-- C1 witness: the empty payload at a concrete gateway, id and oracle. -/
theorem claim1_witness :
    fdEx.updateTicket 7 [] netErr = (.error "Update payload cannot be empty.", []) ∧
    fdEx.updateTicketField 7 [] netErr = (.error "Update payload cannot be empty.", []) ∧
    fdEx.updateContact 7 [] netErr = (.error "Update payload cannot be empty.", []) ∧
    fdEx.updateContactField 7 [] netErr = (.error "Update payload cannot be empty.", []) :=
  claim1_empty_update_rejected_locally fdEx 7 [] netErr rfl

/-! ## C2: page and page-size clamping on the list operations -/

/-- `listTickets` always issues exactly one request, whose query string
serializes `page`/`per_page` first, with the clamped values. -/
theorem listTickets_issued (fd : FreshdeskAPI) (page perPage : Int)
    (filters : Option FreshdeskTicketFilters) (net : Net) :
    (fd.listTickets page perPage filters net).2 =
      [fd.buildRequest ("/tickets?" ++ serializeParams
        ([("page", toString (max 1 page)), ("per_page", toString (min (max 1 perPage) 100))] ++
          ticketFilterParams filters)) {}] := by
  simp only [FreshdeskAPI.listTickets, FreshdeskAPI.requestRaw]
  split <;> rename_i heq <;> simp only [Prod.mk.injEq] at heq
  · exact heq.2.symm
  · split
    · exact heq.2.symm
    · split <;> exact heq.2.symm

/-- `listContacts` always issues exactly one request, whose query string
serializes `page`/`per_page` with the clamped values. -/
theorem listContacts_issued (fd : FreshdeskAPI) (page perPage : Int) (net : Net) :
    (fd.listContacts page perPage net).2 =
      [fd.buildRequest ("/contacts?" ++ serializeParams
        [("page", toString (max 1 page)), ("per_page", toString (min (max 1 perPage) 100))]) {}] := by
  simp only [FreshdeskAPI.listContacts, FreshdeskAPI.requestRaw]
  split <;> rename_i heq <;> simp only [Prod.mk.injEq] at heq
  · exact heq.2.symm
  · split
    · exact heq.2.symm
    · split <;> exact heq.2.symm

/-- C2: for both list operations and all caller-supplied page numbers and
page sizes, a page below 1 is clamped to 1, a page size outside `[1,100]`
is clamped into that range (values already in range pass through), and the
single request issued carries `page`/`per_page` bound to the clamped
values in its query string. -/
theorem claim2_list_pagination_clamped (fd : FreshdeskAPI) (page perPage : Int)
    (filters : Option FreshdeskTicketFilters) (net : Net) :
    (page < 1 → max 1 page = 1) ∧
    (1 ≤ page → max 1 page = page) ∧
    (perPage < 1 → min (max 1 perPage) 100 = 1) ∧
    (100 < perPage → min (max 1 perPage) 100 = 100) ∧
    (1 ≤ perPage → perPage ≤ 100 → min (max 1 perPage) 100 = perPage) ∧
    1 ≤ max 1 page ∧ 1 ≤ min (max 1 perPage) 100 ∧ min (max 1 perPage) 100 ≤ 100 ∧
    (fd.listTickets page perPage filters net).2 =
      [fd.buildRequest ("/tickets?" ++ serializeParams
        ([("page", toString (max 1 page)), ("per_page", toString (min (max 1 perPage) 100))] ++
          ticketFilterParams filters)) {}] ∧
    (fd.listContacts page perPage net).2 =
      [fd.buildRequest ("/contacts?" ++ serializeParams
        [("page", toString (max 1 page)), ("per_page", toString (min (max 1 perPage) 100))]) {}] := by
  refine ⟨fun h => by omega, fun h => by omega, fun h => by omega, fun h => by omega,
    fun h h' => by omega, by omega, by omega, by omega,
    listTickets_issued fd page perPage filters net, listContacts_issued fd page perPage net⟩

/-- C2 witness: page 0 is clamped to 1 and page size 500 to 100 on the
requests both list operations issue. -/
theorem claim2_witness :
    max 1 (0 : Int) = 1 ∧ min (max 1 (500 : Int)) 100 = 100 ∧
    (fdEx.listTickets 0 500 none netErr).2 =
      [fdEx.buildRequest ("/tickets?" ++ serializeParams
        ([("page", toString (max 1 (0 : Int))),
          ("per_page", toString (min (max 1 (500 : Int)) 100))] ++
          ticketFilterParams none)) {}] :=
  ⟨(claim2_list_pagination_clamped fdEx 0 500 none netErr).1 (by decide),
   (claim2_list_pagination_clamped fdEx 0 500 none netErr).2.2.2.1 (by decide),
   (claim2_list_pagination_clamped fdEx 0 500 none netErr).2.2.2.2.2.2.2.2.1⟩

/-! ## C3 and C10: the Link-header parser -/

/-- A comma-separated Link-header entry that passes every check of the
parser for the given relation: the regex matches with that relation, the
URL constructor succeeds, a truthy `page` query parameter exists and it
parses to a number. -/
def wellFormedRel (rel : List Char) (link : List Char) : Prop :=
  ∃ u page n, matchLink link = some (u, rel) ∧
    (∃ search, urlSearch u = some search ∧ searchParamsGet search "page".data = some page) ∧
    ¬ page.isEmpty ∧ jsParseInt page = some n

/-- One entry either leaves `nextPage` unchanged or is fully well-formed
for `rel="next"`. -/
theorem processLink_next_cases (p : PaginationInfo) (l : List Char) :
    (processLink p l).nextPage = p.nextPage ∨ wellFormedRel "next".data l := by
  unfold processLink
  split
  · exact Or.inl rfl
  · rename_i url rel hmatch
    split
    · exact Or.inl rfl
    · rename_i search hsearch
      split
      · exact Or.inl rfl
      · rename_i page hpage
        split
        · rename_i hc
          split
          · exact Or.inl rfl
          · rename_i n hn
            split
            · rename_i hrel
              exact Or.inr ⟨url, page, n, hrel ▸ hmatch, ⟨search, hsearch, hpage⟩, hc.1, hn⟩
            · exact Or.inl rfl
        · exact Or.inl rfl

/-- One entry either leaves `prevPage` unchanged or is fully well-formed
for `rel="prev"`. -/
theorem processLink_prev_cases (p : PaginationInfo) (l : List Char) :
    (processLink p l).prevPage = p.prevPage ∨ wellFormedRel "prev".data l := by
  unfold processLink
  split
  · exact Or.inl rfl
  · rename_i url rel hmatch
    split
    · exact Or.inl rfl
    · rename_i search hsearch
      split
      · exact Or.inl rfl
      · rename_i page hpage
        split
        · rename_i hc
          split
          · exact Or.inl rfl
          · rename_i n hn
            split
            · exact Or.inl rfl
            · rename_i hrel
              rcases hc.2 with hnext | hprev
              · exact absurd hnext hrel
              · exact Or.inr ⟨url, page, n, hprev ▸ hmatch, ⟨search, hsearch, hpage⟩, hc.1, hn⟩
        · exact Or.inl rfl

/-- A fold over entries only produces a `nextPage` that was already there
or comes from some well-formed `rel="next"` entry. -/
theorem foldl_next_isSome (links : List (List Char)) : ∀ init : PaginationInfo,
    ((links.foldl processLink init).nextPage).isSome →
    init.nextPage.isSome ∨ ∃ l ∈ links, wellFormedRel "next".data l := by
  induction links with
  | nil => exact fun init h => Or.inl h
  | cons l ls ih =>
    intro init h
    rcases ih (processLink init l) h with h' | ⟨l', hl', hw⟩
    · rcases processLink_next_cases init l with he | hw
      · exact Or.inl (he ▸ h')
      · exact Or.inr ⟨l, List.mem_cons_self _ _, hw⟩
    · exact Or.inr ⟨l', List.mem_cons_of_mem _ hl', hw⟩

/-- Dual of `foldl_next_isSome` for `prevPage`. -/
theorem foldl_prev_isSome (links : List (List Char)) : ∀ init : PaginationInfo,
    ((links.foldl processLink init).prevPage).isSome →
    init.prevPage.isSome ∨ ∃ l ∈ links, wellFormedRel "prev".data l := by
  induction links with
  | nil => exact fun init h => Or.inl h
  | cons l ls ih =>
    intro init h
    rcases ih (processLink init l) h with h' | ⟨l', hl', hw⟩
    · rcases processLink_prev_cases init l with he | hw
      · exact Or.inl (he ▸ h')
      · exact Or.inr ⟨l, List.mem_cons_self _ _, hw⟩
    · exact Or.inr ⟨l', List.mem_cons_of_mem _ hl', hw⟩

/-- A present `nextPage` requires a well-formed `rel="next"` entry in the
header. -/
theorem parseLinkHeader_next_isSome (s : String)
    (h : ((parseLinkHeader (some s)).nextPage).isSome) :
    ∃ l ∈ splitOnChar ',' s.data, wellFormedRel "next".data l := by
  rw [show parseLinkHeader (some s) =
      if s = "" then { nextPage := none, prevPage := none }
      else (splitOnChar ',' s.data).foldl processLink { nextPage := none, prevPage := none }
    from rfl] at h
  by_cases hs : s = ""
  · rw [if_pos hs] at h; simp at h
  · rw [if_neg hs] at h
    rcases foldl_next_isSome _ _ h with h' | hex
    · simp at h'
    · exact hex

/-- A present `prevPage` requires a well-formed `rel="prev"` entry in the
header. -/
theorem parseLinkHeader_prev_isSome (s : String)
    (h : ((parseLinkHeader (some s)).prevPage).isSome) :
    ∃ l ∈ splitOnChar ',' s.data, wellFormedRel "prev".data l := by
  rw [show parseLinkHeader (some s) =
      if s = "" then { nextPage := none, prevPage := none }
      else (splitOnChar ',' s.data).foldl processLink { nextPage := none, prevPage := none }
    from rfl] at h
  by_cases hs : s = ""
  · rw [if_pos hs] at h; simp at h
  · rw [if_neg hs] at h
    rcases foldl_prev_isSome _ _ h with h' | hex
    · simp at h'
    · exact hex

/-- C3: the header with both relations maps to a cursor with `nextPage=3`
and `prevPage=1`; a header with only a `rel="next"` entry leaves
`prevPage` absent; and for every header, `nextPage`/`prevPage` are present
only when an entry with the corresponding relation existed in the
header. -/
theorem claim3_link_header_roundtrip :
    parseLinkHeader
        (some "<https://x/api/v2/tickets?page=3>; rel=\"next\", <https://x/api/v2/tickets?page=1>; rel=\"prev\"") =
      { nextPage := some 3, prevPage := some 1 } ∧
    parseLinkHeader (some "<https://x/api/v2/tickets?page=3>; rel=\"next\"") =
      { nextPage := some 3, prevPage := none } ∧
    (∀ s : String, ((parseLinkHeader (some s)).nextPage).isSome →
      ∃ l ∈ splitOnChar ',' s.data, ∃ u, matchLink l = some (u, "next".data)) ∧
    (∀ s : String, ((parseLinkHeader (some s)).prevPage).isSome →
      ∃ l ∈ splitOnChar ',' s.data, ∃ u, matchLink l = some (u, "prev".data)) := by
  refine ⟨by decide, by decide, fun s h => ?_, fun s h => ?_⟩
  · obtain ⟨l, hl, u, page, n, hm, _⟩ := parseLinkHeader_next_isSome s h
    exact ⟨l, hl, u, hm⟩
  · obtain ⟨l, hl, u, page, n, hm, _⟩ := parseLinkHeader_prev_isSome s h
    exact ⟨l, hl, u, hm⟩

/-- C3 witness: the only-`next` header's present `nextPage` indeed comes
with a matching `rel="next"` entry. -/
theorem claim3_witness :
    ∃ l ∈ splitOnChar ',' ("<https://x/api/v2/tickets?page=3>; rel=\"next\"").data,
      ∃ u, matchLink l = some (u, "next".data) :=
  claim3_link_header_roundtrip.2.2.1 "<https://x/api/v2/tickets?page=3>; rel=\"next\"" (by decide)

/-- C10: the Link-header parser is total and defensive: a null header, an
empty header, an entry not matching the `<url>; rel="..."` shape, a URL
that fails to parse, a URL without a `page` query parameter, and a
non-numeric `page` value all yield a cursor with the corresponding
relation absent; and a relation is present only for a header containing an
entry that passes every one of those checks. -/
theorem claim10_link_parser_total :
    parseLinkHeader none = { nextPage := none, prevPage := none } ∧
    parseLinkHeader (some "") = { nextPage := none, prevPage := none } ∧
    parseLinkHeader (some "entry without the url-and-rel shape") =
      { nextPage := none, prevPage := none } ∧
    parseLinkHeader (some "<not a url>; rel=\"next\"") =
      { nextPage := none, prevPage := none } ∧
    parseLinkHeader (some "<https://x/api/v2/tickets>; rel=\"next\"") =
      { nextPage := none, prevPage := none } ∧
    parseLinkHeader (some "<https://x/api/v2/tickets?page=abc>; rel=\"next\"") =
      { nextPage := none, prevPage := none } ∧
    (∀ s : String, ((parseLinkHeader (some s)).nextPage).isSome →
      ∃ l ∈ splitOnChar ',' s.data, wellFormedRel "next".data l) ∧
    (∀ s : String, ((parseLinkHeader (some s)).prevPage).isSome →
      ∃ l ∈ splitOnChar ',' s.data, wellFormedRel "prev".data l) :=
  ⟨by decide, by decide, by decide, by decide, by decide, by decide,
   parseLinkHeader_next_isSome, parseLinkHeader_prev_isSome⟩

/-- C10 witness: the two-relation header's present `prevPage` comes with a
fully well-formed `rel="prev"` entry. -/
theorem claim10_witness :
    ∃ l ∈ splitOnChar ','
        ("<https://x/api/v2/tickets?page=3>; rel=\"next\", <https://x/api/v2/tickets?page=1>; rel=\"prev\"").data,
      wellFormedRel "prev".data l :=
  claim10_link_parser_total.2.2.2.2.2.2.2
    "<https://x/api/v2/tickets?page=3>; rel=\"next\", <https://x/api/v2/tickets?page=1>; rel=\"prev\""
    (by decide)

/-! ## C4: default headers versus caller-supplied headers -/

/-- Assigning a key makes it the key's value. -/
theorem objGet_objAssign_self (m : List (String × String)) (kv : String × String) :
    objGet (objAssign m kv) kv.1 = some kv.2 := by
  unfold objAssign
  split
  · rename_i hany
    induction m with
    | nil => simp at hany
    | cons p ps ih =>
      by_cases hp : p.1 = kv.1
      · simp [objGet, hp]
      · simp only [List.any_cons, Bool.or_eq_true, beq_iff_eq] at hany
        rcases hany with h | h
        · exact absurd h hp
        · simpa [objGet, hp] using ih h
  · rename_i hany
    induction m with
    | nil => simp [objGet]
    | cons p ps ih =>
      simp only [List.any_cons, Bool.or_eq_true, beq_iff_eq, not_or] at hany
      have hrec := ih (by simp [hany.2])
      simpa [objGet, List.cons_append, hany.1] using hrec

/-- Replacing the values bound to one key leaves every other key's value
unchanged. -/
theorem objGet_map_replace (kv : String × String) (k : String) (h : ¬ k = kv.1) :
    ∀ m : List (String × String),
      objGet (m.map (fun p => if p.1 == kv.1 then (p.1, kv.2) else p)) k = objGet m k := by
  intro m
  induction m with
  | nil => rfl
  | cons p ps ih =>
    have hkv : ¬ kv.1 = k := fun hc => h hc.symm
    by_cases hp : p.1 = kv.1 <;> by_cases hpk : p.1 = k
    · exact absurd (hpk ▸ hp) h
    · simpa [objGet, hp, hpk, hkv] using ih
    · simp [objGet, hp, hpk, h]
    · simpa [objGet, hp, hpk] using ih

/-- Appending a binding for another key leaves a key's value unchanged. -/
theorem objGet_append_single (kv : String × String) (k : String) (h : ¬ kv.1 = k) :
    ∀ m : List (String × String), objGet (m ++ [kv]) k = objGet m k := by
  intro m
  induction m with
  | nil => simp [objGet, h]
  | cons p ps ih =>
    by_cases hpk : p.1 = k <;> simp [objGet, hpk, ih]

/-- Assigning one key leaves every other key's value unchanged. -/
theorem objGet_objAssign_other (m : List (String × String)) (kv : String × String)
    (k : String) (h : k ≠ kv.1) : objGet (objAssign m kv) k = objGet m k := by
  unfold objAssign
  split
  · exact objGet_map_replace kv k h m
  · exact objGet_append_single kv k (fun hc => h hc.symm) m

/-- A spread whose right side does not bind a key leaves that key's value
as in the base object. -/
theorem objGet_objSpread_of_not_bound (extra : List (String × String)) :
    ∀ base : List (String × String), ∀ k : String, (∀ p ∈ extra, p.1 ≠ k) →
      objGet (objSpread base extra) k = objGet base k := by
  induction extra with
  | nil => intro base k _; rfl
  | cons q qs ih =>
    intro base k hk
    have h1 : objGet (objSpread base (q :: qs)) k = objGet (objAssign base q) k := by
      exact ih (objAssign base q) k (fun p hp => hk p (List.mem_cons_of_mem _ hp))
    rw [h1, objGet_objAssign_other base q k
      (fun hc => hk q (List.mem_cons_self _ _) hc.symm)]

/-- A spread never removes a key present in the base object. -/
theorem objGet_objSpread_isSome (extra : List (String × String)) :
    ∀ base : List (String × String), ∀ k : String, (objGet base k).isSome →
      (objGet (objSpread base extra) k).isSome := by
  induction extra with
  | nil => intro base k h; exact h
  | cons q qs ih =>
    intro base k h
    refine ih (objAssign base q) k ?_
    by_cases hq : k = q.1
    · rw [hq, objGet_objAssign_self]; rfl
    · rw [objGet_objAssign_other base q k hq]; exact h

/-- C4 counterexample: a caller-supplied `Content-Type` header replaces the
default — the sent header object carries `text/plain`, not
`application/json`, because the caller's headers are spread after the
defaults. -/
theorem claim4_counterexample :
    objGet ((fdEx.buildRequest "/tickets"
        { headers := [("Content-Type", "text/plain")] }).headers) "Content-Type" =
      some "text/plain" ∧
    objGet ((fdEx.buildRequest "/tickets"
        { headers := [("Content-Type", "text/plain")] }).headers) "Content-Type" ≠
      some "application/json" := by
  constructor
  · rfl
  · decide

/-- C4 (amended): every outbound request's header object contains a
`Content-Type` and an `Authorization` entry; when the caller's extra
headers do not bind those keys, the values are `application/json` and the
Basic credential derived from the Credential. A caller-supplied entry for
either key replaces the default value (it cannot remove the key). -/
theorem claim4_amended (fd : FreshdeskAPI) (endpoint : String) (options : RequestOptions) :
    (objGet (fd.buildRequest endpoint options).headers "Content-Type").isSome ∧
    (objGet (fd.buildRequest endpoint options).headers "Authorization").isSome ∧
    ((∀ p ∈ options.headers, p.1 ≠ "Content-Type") →
      objGet (fd.buildRequest endpoint options).headers "Content-Type" =
        some "application/json") ∧
    ((∀ p ∈ options.headers, p.1 ≠ "Authorization") →
      objGet (fd.buildRequest endpoint options).headers "Authorization" =
        some ("Basic " ++ base64 (fd.apiKey ++ ":X"))) := by
  simp only [FreshdeskAPI.buildRequest]
  have hCT : objGet [("Content-Type", "application/json"),
      ("Authorization", "Basic " ++ base64 (fd.apiKey ++ ":X"))] "Content-Type" =
      some "application/json" := by simp [objGet]
  have hA : objGet [("Content-Type", "application/json"),
      ("Authorization", "Basic " ++ base64 (fd.apiKey ++ ":X"))] "Authorization" =
      some ("Basic " ++ base64 (fd.apiKey ++ ":X")) := by simp [objGet]
  refine ⟨?_, ?_, ?_, ?_⟩
  · exact objGet_objSpread_isSome options.headers _ _ (by rw [hCT]; rfl)
  · exact objGet_objSpread_isSome options.headers _ _ (by rw [hA]; rfl)
  · intro hnb
    rw [objGet_objSpread_of_not_bound options.headers _ _ hnb, hCT]
  · intro hnb
    rw [objGet_objSpread_of_not_bound options.headers _ _ hnb, hA]

/-- C4 witness: with an unrelated extra header, both defaults are sent. -/
theorem claim4_witness :
    objGet ((fdEx.buildRequest "/tickets"
        { headers := [("X-Debug", "1")] }).headers) "Content-Type" =
      some "application/json" ∧
    objGet ((fdEx.buildRequest "/tickets"
        { headers := [("X-Debug", "1")] }).headers) "Authorization" =
      some ("Basic " ++ base64 (fdEx.apiKey ++ ":X")) :=
  ⟨(claim4_amended fdEx "/tickets" { headers := [("X-Debug", "1")] }).2.2.1 (by decide),
   (claim4_amended fdEx "/tickets" { headers := [("X-Debug", "1")] }).2.2.2 (by decide)⟩

/-! ## C5: JSON parse failure on a success response -/

/-- A network oracle returning a 200 whose body fails to parse as JSON. -/
def net200bad : Net := fun _ =>
  .ok { status := 200, statusText := "OK", jsonBody := none, linkHeader := none }

/-- A network oracle returning a 404 whose body fails to parse as JSON. -/
def net404bad : Net := fun _ =>
  .ok { status := 404, statusText := "Not Found", jsonBody := none, linkHeader := none }

/-- C5 counterexample: on a 2xx (here 200, not no-content) response whose
body fails to parse as JSON, the body-returning `request` yields a success
value (an empty record), not an error. -/
theorem claim5_counterexample :
    (fdEx.request "/tickets/1" {} net200bad).1 = .ok (Json.obj []) ∧
    ∀ e, (fdEx.request "/tickets/1" {} net200bad).1 ≠ .error e := by
  constructor
  · rfl
  · intro e h
    rw [show (fdEx.request "/tickets/1" {} net200bad).1 = .ok (Json.obj []) from rfl] at h
    exact Except.noConfusion h

/-- C5 (amended): on a non-204 response whose body fails to parse as JSON,
`request` yields an empty-record success when the status is 2xx, and the
parse-failure error only when the status is not 2xx. -/
theorem claim5_amended (fd : FreshdeskAPI) (endpoint : String) (options : RequestOptions)
    (net : Net) (r : HttpResponse)
    (hnet : net (fd.buildRequest endpoint options) = .ok r)
    (hbody : r.jsonBody = none) (h204 : r.status ≠ 204) :
    (r.isOk = true → (fd.request endpoint options net).1 = .ok (Json.obj [])) ∧
    (r.isOk = false → (fd.request endpoint options net).1 =
      .error (apiParseFailMessage r.status r.statusText)) := by
  constructor <;> intro hok <;>
    simp [FreshdeskAPI.request, FreshdeskAPI.requestRaw, hnet, h204, hbody, hok]

/-- C5 witness: both branches of the amended claim at concrete oracles. -/
theorem claim5_witness :
    (fdEx.request "/t" {} net200bad).1 = .ok (Json.obj []) ∧
    (fdEx.request "/t" {} net404bad).1 = .error (apiParseFailMessage 404 "Not Found") :=
  ⟨(claim5_amended fdEx "/t" {} net200bad
      { status := 200, statusText := "OK", jsonBody := none, linkHeader := none }
      rfl rfl (by decide)).1 rfl,
   (claim5_amended fdEx "/t" {} net404bad
      { status := 404, statusText := "Not Found", jsonBody := none, linkHeader := none }
      rfl rfl (by decide)).2 rfl⟩

/-! ## C6: per-category folder-fetch failures in the tool aggregation -/

/-- The entry the `get-categories` loop records for one category. -/
def categoryEntryFor (fd : FreshdeskAPI) (net : Net) (category : Json) : CategoryEntry :=
  match fd.getFolders (category.getField "id") net with
  | (.ok folders, _) => { category := category, folders := folders, errorNote := none }
  | (.error e, _) =>
      { category := category, folders := .arr []
        errorNote := some ("Failed to fetch folders: " ++ e) }

/-- The loop's entries are exactly the per-category records, in order. -/
theorem getCategoriesToolLoop_entries (fd : FreshdeskAPI) (net : Net) :
    ∀ (cats : List Json) (acc : List CategoryEntry) (issued : List Request),
      (getCategoriesToolLoop fd net cats acc issued).1 =
        acc ++ cats.map (categoryEntryFor fd net) := by
  intro cats
  induction cats with
  | nil => intro acc issued; simp [getCategoriesToolLoop]
  | cons c cs ih =>
    intro acc issued
    cases hq : fd.getFolders (c.getField "id") net with
    | mk res iss =>
      cases res with
      | ok folders =>
          simp [getCategoriesToolLoop, hq, categoryEntryFor, ih]
      | error e =>
          simp [getCategoriesToolLoop, hq, categoryEntryFor, ih]

/-- C6: in the `get-categories` tool aggregation, every category whose
folders fetch fails contributes an entry with an empty folder list and an
attached error note, and the overall operation still completes with a
success outcome. -/
theorem claim6_folder_failures_isolated (fd : FreshdeskAPI) (net : Net) (cats : List Json)
    (hcats : (fd.getCategories net).1 = .ok cats) :
    ∃ entries, (getCategoriesTool fd net).1 = ToolOutcome.success entries ∧
      ∀ category ∈ cats, ∀ e,
        (fd.getFolders (category.getField "id") net).1 = .error e →
          { category := category, folders := Json.arr [],
            errorNote := some ("Failed to fetch folders: " ++ e) } ∈ entries := by
  cases hp : fd.getCategories net with
  | mk res issued =>
    rw [hp] at hcats
    simp only at hcats
    subst hcats
    refine ⟨cats.map (categoryEntryFor fd net), ?_, ?_⟩
    · simp [getCategoriesTool, hp, getCategoriesToolLoop_entries]
    · intro category hmem e he
      have : categoryEntryFor fd net category =
          { category := category, folders := Json.arr [],
            errorNote := some ("Failed to fetch folders: " ++ e) } := by
        cases hq : fd.getFolders (category.getField "id") net with
        | mk r i =>
          rw [hq] at he
          simp only at he
          subst he
          simp [categoryEntryFor, hq]
      exact this ▸ List.mem_map_of_mem _ hmem

/-- A category fixture with id 1. -/
def catEx : Json := .obj [("id", .num 1)]

/-- A network oracle on which only the categories listing succeeds; every
other request (in particular the folders fetch) fails. -/
def netC6 : Net := fun req =>
  if req.url = "https://d/api/v2/solutions/categories" then
    .ok { status := 200, statusText := "OK", jsonBody := some (.arr [catEx]), linkHeader := none }
  else .error "offline"

/-- C6 witness: at the oracle whose folders fetch fails, the failing
category's noted entry is in the completed result. -/
theorem claim6_witness :
    ∃ entries, (getCategoriesTool fdEx netC6).1 = ToolOutcome.success entries ∧
      ∀ category ∈ [catEx], ∀ e,
        (fdEx.getFolders (category.getField "id") netC6).1 = .error e →
          { category := category, folders := Json.arr [],
            errorNote := some ("Failed to fetch folders: " ++ e) } ∈ entries :=
  claim6_folder_failures_isolated fdEx netC6 [catEx] rfl

/-! ## C7: getCategories never fails outward -/

/-- C7: `getCategories` never fails outward: for every network oracle it
returns a success, the empty list whenever the underlying request errors
or its body decodes to a non-array value, and the decoded array when the
body is an array. -/
theorem claim7_getCategories_never_fails (fd : FreshdeskAPI) (net : Net) :
    (∃ xs, (fd.getCategories net).1 = .ok xs) ∧
    (∀ e, (fd.request "/solutions/categories" {} net).1 = .error e →
      (fd.getCategories net).1 = .ok []) ∧
    (∀ b, (fd.request "/solutions/categories" {} net).1 = .ok b →
      (∀ xs, b ≠ Json.arr xs) → (fd.getCategories net).1 = .ok []) ∧
    (∀ xs, (fd.request "/solutions/categories" {} net).1 = .ok (.arr xs) →
      (fd.getCategories net).1 = .ok xs) := by
  cases hp : fd.request "/solutions/categories" {} net with
  | mk res issued =>
    cases res with
    | error e =>
      refine ⟨⟨[], by simp [FreshdeskAPI.getCategories, hp]⟩, ?_, ?_, ?_⟩
      · intro e' _; simp [FreshdeskAPI.getCategories, hp]
      · intro b hb _; simp at hb
      · intro xs hxs; simp at hxs
    | ok b =>
      cases b with
      | arr a =>
        refine ⟨⟨a, by simp [FreshdeskAPI.getCategories, hp]⟩, fun e' he => by simp at he,
          fun b' hb hne => ?_, fun xs hxs => ?_⟩
        · simp only [Except.ok.injEq] at hb
          subst hb
          exact absurd rfl (hne a)
        · simp only [Except.ok.injEq, Json.arr.injEq] at hxs
          subst hxs
          simp [FreshdeskAPI.getCategories, hp]
      | null =>
        exact ⟨⟨[], by simp [FreshdeskAPI.getCategories, hp]⟩, fun e' he => by simp at he,
          fun b' hb hne => by simp [FreshdeskAPI.getCategories, hp],
          fun xs hxs => by simp at hxs⟩
      | bool v =>
        exact ⟨⟨[], by simp [FreshdeskAPI.getCategories, hp]⟩, fun e' he => by simp at he,
          fun b' hb hne => by simp [FreshdeskAPI.getCategories, hp],
          fun xs hxs => by simp at hxs⟩
      | num v =>
        exact ⟨⟨[], by simp [FreshdeskAPI.getCategories, hp]⟩, fun e' he => by simp at he,
          fun b' hb hne => by simp [FreshdeskAPI.getCategories, hp],
          fun xs hxs => by simp at hxs⟩
      | str v =>
        exact ⟨⟨[], by simp [FreshdeskAPI.getCategories, hp]⟩, fun e' he => by simp at he,
          fun b' hb hne => by simp [FreshdeskAPI.getCategories, hp],
          fun xs hxs => by simp at hxs⟩
      | obj v =>
        exact ⟨⟨[], by simp [FreshdeskAPI.getCategories, hp]⟩, fun e' he => by simp at he,
          fun b' hb hne => by simp [FreshdeskAPI.getCategories, hp],
          fun xs hxs => by simp at hxs⟩

/-- C7 witness: on an oracle whose `fetch` always rejects, `getCategories`
still succeeds with the empty list. -/
theorem claim7_witness :
    (fdEx.getCategories netErr).1 = .ok [] :=
  (claim7_getCategories_never_fails fdEx netErr).2.1 "offline" rfl

/-! ## C8: the all-articles aggregation tolerates one failing folder -/

/-- Category fixture A (id 1). -/
def catA : Json := .obj [("id", .num 1), ("name", .str "A")]
/-- Category fixture B (id 2), which will have no folders. -/
def catB : Json := .obj [("id", .num 2), ("name", .str "B")]
/-- Folder fixture 10 of category A, whose articles fetch will fail. -/
def folderA1 : Json := .obj [("id", .num 10), ("name", .str "A1")]
/-- Folder fixture 11 of category A, whose articles fetch will succeed. -/
def folderA2 : Json := .obj [("id", .num 11), ("name", .str "A2")]
/-- Article fixture of folder 11. -/
def artOne : Json := .obj [("id", .num 100), ("title", .str "first")]
/-- Second article fixture of folder 11. -/
def artTwo : Json := .obj [("id", .num 101), ("title", .str "second")]

/-- A 200 response carrying a JSON body. -/
def okJson (j : Json) : Except String HttpResponse :=
  .ok { status := 200, statusText := "OK", jsonBody := some j, linkHeader := none }

/-- The C8 scenario oracle: two categories; category 1 has folders 10 and
11; category 2 has none; folder 10's articles fetch fails with a 500 whose
body does not parse; folder 11's succeeds with two articles. -/
def netC8 : Net := fun req =>
  if req.url = "https://d/api/v2/solutions/categories" then okJson (.arr [catA, catB])
  else if req.url = "https://d/api/v2/solutions/categories/1/folders" then
    okJson (.arr [folderA1, folderA2])
  else if req.url = "https://d/api/v2/solutions/categories/2/folders" then okJson (.arr [])
  else if req.url = "https://d/api/v2/solutions/folders/10/articles" then
    .ok { status := 500, statusText := "Internal Server Error", jsonBody := none, linkHeader := none }
  else if req.url = "https://d/api/v2/solutions/folders/11/articles" then
    okJson (.arr [artOne, artTwo])
  else .error "unexpected request"

/-- C8: on the two-category scenario — category A (id 1) with two folders
of which folder 10's articles fetch fails and folder 11's succeeds, and
category B (id 2) with no folders — the aggregate completes without
raising and returns exactly the succeeding folder's articles. -/
theorem claim8_aggregate_partial_failure :
    (fdEx.getArticles (folderA1.getField "id") netC8).1 =
      .error (apiParseFailMessage 500 "Internal Server Error") ∧
    (fdEx.getFolders (catB.getField "id") netC8).1 = .ok (.arr []) ∧
    (fdEx.getAllArticles netC8).1 = .ok [artOne, artTwo] :=
  ⟨rfl, rfl, rfl⟩

/-! ## C9: create-ticket requester-identifier validation -/

/-- Every call through `request` issues exactly the one request it
builds. -/
theorem request_issued (fd : FreshdeskAPI) (endpoint : String) (options : RequestOptions)
    (net : Net) : (fd.request endpoint options net).2 = [fd.buildRequest endpoint options] := by
  simp only [FreshdeskAPI.request, FreshdeskAPI.requestRaw]
  split <;> rename_i heq <;> simp only [Prod.mk.injEq] at heq
  · exact heq.2.symm
  · split
    · exact heq.2.symm
    · split
      · split <;> exact heq.2.symm
      · split <;> exact heq.2.symm

/-- C9: with no requester identifier the `create-ticket` handler fails
locally with no request issued; with a phone but neither email nor name it
fails locally with no request issued; with a truthy email the pre-flight
checks pass and the POST to `/tickets` is issued. -/
theorem claim9_create_ticket_validation (fd : FreshdeskAPI) (input : CreateTicketInput)
    (net : Net) :
    (hasRequesterIdentifier input = false →
      createTicketTool fd input net =
        (.failure ("Validation Error: At least one requester identifier (email, requester_id, " ++
          "facebook_id, phone, twitter_id, or unique_external_id) must be provided."), [])) ∧
    (optStrTruthy input.phone = true → optStrTruthy input.email = false →
      optStrTruthy input.name = false →
      createTicketTool fd input net =
        (.failure "Validation Error: Name is required when using phone without an email address.",
         [])) ∧
    (optStrTruthy input.email = true →
      (createTicketTool fd input net).2 =
        [fd.buildRequest "/tickets"
          { method := "POST", body := some (jsonStringify (createTicketPayload input)) }]) := by
  refine ⟨fun h => ?_, fun hp he hn => ?_, fun he => ?_⟩
  · simp [createTicketTool, h]
  · simp [createTicketTool, hasRequesterIdentifier, hp, he, hn]
  · have hiss := request_issued fd "/tickets"
      { method := "POST", body := some (jsonStringify (createTicketPayload input)) } net
    cases hq : fd.createTicket (createTicketPayload input) net with
    | mk res iss =>
      have hi : iss = [fd.buildRequest "/tickets"
          { method := "POST", body := some (jsonStringify (createTicketPayload input)) }] := by
        rw [show fd.createTicket (createTicketPayload input) net = fd.request "/tickets"
            { method := "POST", body := some (jsonStringify (createTicketPayload input)) } net
          from rfl] at hq
        rw [hq] at hiss
        exact hiss
      cases res <;> simp [createTicketTool, hasRequesterIdentifier, he, hq, hi]

/-- C9 witness: the three validation outcomes at concrete argument
records. -/
theorem claim9_witness :
    createTicketTool fdEx { subject := "s", description := "d" } netErr =
      (.failure ("Validation Error: At least one requester identifier (email, requester_id, " ++
        "facebook_id, phone, twitter_id, or unique_external_id) must be provided."), []) ∧
    createTicketTool fdEx { subject := "s", description := "d", phone := some "555" } netErr =
      (.failure "Validation Error: Name is required when using phone without an email address.",
       []) ∧
    (createTicketTool fdEx { subject := "s", description := "d", email := some "a@b.c" }
        netErr).2 =
      [fdEx.buildRequest "/tickets"
        { method := "POST", body := some (jsonStringify (createTicketPayload
            { subject := "s", description := "d", email := some "a@b.c" })) }] :=
  ⟨(claim9_create_ticket_validation fdEx { subject := "s", description := "d" } netErr).1 rfl,
   (claim9_create_ticket_validation fdEx
      { subject := "s", description := "d", phone := some "555" } netErr).2.1 rfl rfl rfl,
   (claim9_create_ticket_validation fdEx
      { subject := "s", description := "d", email := some "a@b.c" } netErr).2.2 rfl⟩
